import Mathlib

/-!
Verification of the Wanderer 2D transform / physics-constraint core.

The definitions below are a shallow embedding of the repository source:
`src/src/math.ts` (Vector2, WTransformMatrix3, clamp) and the physics and
constraint classes of `src/js/math.js` (WPhysicsModel, WSpring, WRope,
CopyTransformsConstraint, LimitDistanceConstraint, LimitLocationConstraint).
JavaScript numbers are modelled as real numbers; the only place where the
special value Infinity is semantically load-bearing (body mass, tested with
the function isFinite in WRope.solve) is modelled by the two-constructor
type JsNumber.  Division by zero follows the Lean convention x / 0 = 0.
-/

noncomputable section

open Real

/-- A JavaScript number used as a body mass: either a finite real or the
value Infinity.  WRope.solve branches on finiteness of masses, exactly as
the source does with the isFinite test. -/
inductive JsNumber where
  | fin : ℝ → JsNumber
  | inf : JsNumber

/-- The isFinite test of the source: true exactly on finite numbers. -/
def JsNumber.isFinite : JsNumber → Bool
  | .fin _ => true
  | .inf => false

/-- The value of 1 / mass used by WPhysicsModel.updateLocation
(force.scale(1 / this.mass)); 1 / Infinity = 0 in JavaScript. -/
def JsNumber.recipVal : JsNumber → ℝ
  | .fin x => 1 / x
  | .inf => 0

/-- Vector2 of src/src/math.ts: a two-dimensional vector. -/
@[ext]
structure Vector2 where
  x : ℝ
  y : ℝ

namespace Vector2

/-- Vector2.sum with one argument: componentwise addition, returning a
new vector (the variadic source method specialised to a single argument,
the only arity the physics code uses). -/
def sum (a b : Vector2) : Vector2 := ⟨a.x + b.x, a.y + b.y⟩

/-- Vector2.add: in the source this mutates the receiver by adding the
argument; here the updated value is returned. -/
def add (a b : Vector2) : Vector2 := ⟨a.x + b.x, a.y + b.y⟩

/-- Vector2.dif: componentwise difference this - v. -/
def dif (a v : Vector2) : Vector2 := ⟨a.x - v.x, a.y - v.y⟩

/-- Vector2.scale: scalar multiple. -/
def scale (a : Vector2) (n : ℝ) : Vector2 := ⟨a.x * n, a.y * n⟩

/-- Vector2.neg getter. -/
def neg (a : Vector2) : Vector2 := ⟨-a.x, -a.y⟩

/-- Vector2.length getter: Math.hypot(x, y). -/
def length (a : Vector2) : ℝ := Real.sqrt (a.x ^ 2 + a.y ^ 2)

/-- Vector2.norm getter: this.scale(1 / this.length). -/
def norm (a : Vector2) : Vector2 := a.scale (1 / a.length)

/-- Math.atan2(y, x), modelled by the argument of the complex number
x + y i (both return the angle of the point (x, y) in (-pi, pi], with
atan2(0, 0) = 0). -/
def atan2 (y x : ℝ) : ℝ := Complex.arg (x + y * Complex.I)

/-- Vector2.rotation getter: Math.atan2(y, x). -/
def rotation (a : Vector2) : ℝ := atan2 a.y a.x

/-- Vector2.fromDegree of src/src/math.ts: fromDegree(degree, length = 1)
builds (length * cos degree, length * sin degree); the angle is in radians
despite the name. -/
def fromDegree (degree : ℝ) (length : ℝ := 1) : Vector2 :=
  ⟨length * Real.cos degree, length * Real.sin degree⟩

/-- Vector2.fromDegree of src/js/math.js: the parallel implementation whose
parameters are (length, degree) in that order; it builds
(first * cos second, first * sin second). -/
def fromDegreeJs (length degree : ℝ) : Vector2 :=
  ⟨length * Real.cos degree, length * Real.sin degree⟩

/-- Vector2.size, Modelled from the spec: the magnitude accessor used by
WSpring.solve, WRope.solve and LimitDistanceConstraint.solve (dl = |diff|,
the Euclidean norm).  The Vector2 class under src/ defines this accessor
under the name length only; the physics code calls it as size. -/
def size (a : Vector2) : ℝ := a.length

end Vector2

/-- clamp of src/src/math.ts: Math.min(Math.max(min, value), max). -/
def clamp (value min max : ℝ) : ℝ := Min.min (Max.max min value) max

/-- The six stored coefficients a b c d e f of the 3x3 homogeneous matrix
data of WTransformMatrix3 (the remaining three entries of the column-major
9-float buffer are the constants 0, 0, 1 in every state the class can
reach, so they are not stored). -/
@[ext]
structure Coef where
  a : ℝ
  b : ℝ
  c : ℝ
  d : ℝ
  e : ℝ
  f : ℝ

/-- The coefficient computation of WTransformMatrix3.calcMatrix:
a = rx*sx, b = ry*sx, c = (rx*k - ry)*sy, d = (ry*k + rx)*sy, e = tx,
f = ty. -/
def mkMatrixData (translate direct : Vector2) (skewTan : ℝ) (scale : Vector2) : Coef :=
  ⟨direct.x * scale.x, direct.y * scale.x,
   (direct.x * skewTan - direct.y) * scale.y,
   (direct.y * skewTan + direct.x) * scale.y,
   translate.x, translate.y⟩

/-- WTransformMatrix3 of src/src/math.ts: canonical fields (translate,
direct, skewTan, scale) plus the raw coefficient buffer data. -/
@[ext]
structure WTransformMatrix3 where
  translate : Vector2
  direct : Vector2
  skewTan : ℝ
  scale : Vector2
  data : Coef

namespace WTransformMatrix3

/-- calcMatrix: recompute the raw coefficients from the canonical fields. -/
def calcMatrix (m : WTransformMatrix3) : WTransformMatrix3 :=
  { m with data := mkMatrixData m.translate m.direct m.skewTan m.scale }

/-- calcFields applied to a coefficient buffer: recompute all four
canonical fields from the coefficients, keeping the buffer.  Follows the
source order: direct is recomputed first and its rotation is used in the
skew computation. -/
def calcFieldsTM (c : Coef) : WTransformMatrix3 :=
  let direct := (Vector2.mk c.a c.b).norm
  let sk := Vector2.atan2 c.d c.c - Real.pi / 2 - direct.rotation
  { translate := ⟨c.e, c.f⟩
    direct := direct
    skewTan := -Real.tan sk
    scale := ⟨Real.sqrt (c.a ^ 2 + c.b ^ 2), Real.sqrt (c.c ^ 2 + c.d ^ 2) * Real.cos sk⟩
    data := c }

/-- calcFields: recompute the canonical fields from the stored buffer. -/
def calcFields (m : WTransformMatrix3) : WTransformMatrix3 := calcFieldsTM m.data

/-- The WTransformMatrix3 constructor: stores translate, direct =
fromDegree(rotate), skewTan = tan(skew), scale, then runs calcMatrix. -/
def mkTransform (translate : Vector2) (rotate skew : ℝ) (scale : Vector2) :
    WTransformMatrix3 :=
  let direct := Vector2.fromDegree rotate
  ⟨translate, direct, Real.tan skew, scale,
    mkMatrixData translate direct (Real.tan skew) scale⟩

/-- translate(x, y): replace the translate field, then calcMatrix. -/
def translateM (m : WTransformMatrix3) (x y : ℝ) : WTransformMatrix3 :=
  { m with translate := ⟨x, y⟩ }.calcMatrix

/-- translateX(x). -/
def translateX (m : WTransformMatrix3) (x : ℝ) : WTransformMatrix3 :=
  { m with translate := ⟨x, m.translate.y⟩ }.calcMatrix

/-- translateY(y). -/
def translateY (m : WTransformMatrix3) (y : ℝ) : WTransformMatrix3 :=
  { m with translate := ⟨m.translate.x, y⟩ }.calcMatrix

/-- scale(sx, sy): replace the scale field, then calcMatrix. -/
def scaleM (m : WTransformMatrix3) (sx sy : ℝ) : WTransformMatrix3 :=
  { m with scale := ⟨sx, sy⟩ }.calcMatrix

/-- skew(k): skewTan becomes tan(k), then calcMatrix. -/
def skewM (m : WTransformMatrix3) (k : ℝ) : WTransformMatrix3 :=
  { m with skewTan := Real.tan k }.calcMatrix

/-- rotate(x, y) (two-argument overload): direct becomes the normalised
vector (x, y), then calcMatrix. -/
def rotate2 (m : WTransformMatrix3) (x y : ℝ) : WTransformMatrix3 :=
  { m with direct := (Vector2.mk x y).norm }.calcMatrix

/-- rotate(r) (single-argument overload): direct becomes fromDegree(r),
then calcMatrix. -/
def rotate1 (m : WTransformMatrix3) (r : ℝ) : WTransformMatrix3 :=
  { m with direct := Vector2.fromDegree r }.calcMatrix

/-- setArray, Modelled from the spec: replace the raw coefficients
wholesale, then calcFields.  The method is called by the physics code on
the global transform but is absent from the WTransformMatrix3 class under
src/. -/
def setArray (m : WTransformMatrix3) (c : Coef) : WTransformMatrix3 :=
  calcFieldsTM c

/-- The t getter: a copy of the translate vector. -/
def t (m : WTransformMatrix3) : Vector2 := m.translate

/-- The r getter: rotation of the direct vector. -/
def r (m : WTransformMatrix3) : ℝ := m.direct.rotation

/-- The k getter: atan of the stored skew tangent. -/
def k (m : WTransformMatrix3) : ℝ := Real.arctan m.skewTan

/-- The sx getter. -/
def sx (m : WTransformMatrix3) : ℝ := m.scale.x

/-- The sy getter. -/
def sy (m : WTransformMatrix3) : ℝ := m.scale.y

/-- The tx getter. -/
def tx (m : WTransformMatrix3) : ℝ := m.translate.x

/-- The ty getter. -/
def ty (m : WTransformMatrix3) : ℝ := m.translate.y

/-- mult, Modelled from the spec: full 3x3 homogeneous matrix product
this * other of the two column-major matrices [[a,b,0],[c,d,0],[e,f,1]],
using the 3x3 multiply-add formula of WMatrix3.mult; the method is called
by CopyTransformsConstraint.solve but is absent from the WTransformMatrix3
class under src/. -/
def mult (m n : WTransformMatrix3) : Coef :=
  let p := m.data
  let q := n.data
  ⟨p.a * q.a + p.c * q.b, p.b * q.a + p.d * q.b,
   p.a * q.c + p.c * q.d, p.b * q.c + p.d * q.d,
   p.a * q.e + p.c * q.f + p.e, p.b * q.e + p.d * q.f + p.f⟩

end WTransformMatrix3

/-- WPhysicsModel of src/js/math.js: per-object kinematic and dynamic
state.  The private fields #local and #global are named localM and
globalM. -/
@[ext]
structure WPhysicsModel where
  origin : Vector2
  mass : JsNumber
  velocity : Vector2
  acceleration : Vector2
  force : Vector2
  localM : WTransformMatrix3
  globalM : WTransformMatrix3

namespace WPhysicsModel

/-- applyForce(force): this.force.add(force). -/
def applyForce (b : WPhysicsModel) (f : Vector2) : WPhysicsModel :=
  { b with force := b.force.add f }

/-- applyAcceleration(acceleration): this.acceleration.add(acceleration). -/
def applyAcceleration (b : WPhysicsModel) (a : Vector2) : WPhysicsModel :=
  { b with acceleration := b.acceleration.add a }

/-- applyVelocity(velocity): this.velocity.add(velocity). -/
def applyVelocity (b : WPhysicsModel) (v : Vector2) : WPhysicsModel :=
  { b with velocity := b.velocity.add v }

/-- move(displacement): read the local translation, add the displacement,
write back through local.translate. -/
def move (b : WPhysicsModel) (d : Vector2) : WPhysicsModel :=
  let s := b.localM.t.sum d
  { b with localM := b.localM.translateM s.x s.y }

/-- updateLocation(dt): the integration step.  Accumulate force / mass
into acceleration, accumulate acceleration * dt into velocity, move by
velocity * dt, reset acceleration and force to zero, then copy the local
coefficient buffer into the global transform through setArray. -/
def updateLocation (b : WPhysicsModel) (dt : ℝ) : WPhysicsModel :=
  let b1 := b.applyAcceleration (b.force.scale b.mass.recipVal)
  let b2 := b1.applyVelocity (b1.acceleration.scale dt)
  let b3 := b2.move (b2.velocity.scale dt)
  let b4 := { b3 with acceleration := ⟨0, 0⟩, force := ⟨0, 0⟩ }
  { b4 with globalM := b4.globalM.setArray b4.localM.data }

end WPhysicsModel

/-- The WPhysicsModel constructor: stores origin, mass, velocity,
acceleration, zero force, builds the local transform from location,
rotation, scale and skew, copies it to the global transform, then calls
updateLocation(0). -/
def mkPhysicsModel (location : Vector2) (rotation : ℝ) (scale : Vector2)
    (skew : ℝ) (mass : JsNumber) (velocity acceleration origin : Vector2) :
    WPhysicsModel :=
  let l := WTransformMatrix3.mkTransform location rotation skew scale
  WPhysicsModel.updateLocation
    { origin := origin, mass := mass, velocity := velocity,
      acceleration := acceleration, force := ⟨0, 0⟩, localM := l, globalM := l } 0

/-- WSpring configuration: rest length L0 and stiffness ks. -/
structure WSpring where
  L0 : ℝ
  ks : ℝ

/-- WSpring.solve: diff = owner.global.t - target.global.t, dl = diff.size,
x = dl - L0, f = ks * x, F_ba = diff.scale(f / (dl || Infinity)) (so a zero
scale factor when dl = 0, since a finite f divided by Infinity is 0),
F_ab = F_ba.neg; owner.applyForce(F_ab), target.applyForce(F_ba).
Returns the updated (owner, target). -/
def springSolve (s : WSpring) (owner target : WPhysicsModel) :
    WPhysicsModel × WPhysicsModel :=
  let diff := owner.globalM.t.dif target.globalM.t
  let dl := diff.size
  let x := dl - s.L0
  let f := s.ks * x
  let F_ba := diff.scale (if dl = 0 then 0 else f / dl)
  let F_ab := F_ba.neg
  (owner.applyForce F_ab, target.applyForce F_ba)

/-- WRope configuration: rest length and bounce factor. -/
structure WRope where
  length : ℝ
  bounce : ℝ

/-- WRope.solve: dir = target.global.t - owner.global.t, diff = dir.size.
If diff > length, split the overshoot by the mass-weighted fractions r1
and r2 chosen by finiteness of the two masses, move the owner by
mv.scale(r1) and the target by mv.scale(-r2) where
mv = dir.scale((diff - length) / diff), and accumulate each displacement
times bounce into the acceleration of the corresponding body.  Returns the
updated (owner, target). -/
def ropeSolve (ρ : WRope) (owner target : WPhysicsModel) :
    WPhysicsModel × WPhysicsModel :=
  let dir := target.globalM.t.dif owner.globalM.t
  let diff := dir.size
  if ρ.length < diff then
    let rs : ℝ × ℝ :=
      match owner.mass, target.mass with
      | .fin a, .fin b => (b / (a + b), a / (a + b))
      | .fin _, .inf => (1, 0)
      | .inf, .fin _ => (0, 1)
      | .inf, .inf => (0, 0)
    let mv := dir.scale ((diff - ρ.length) / diff)
    let m1 := mv.scale rs.1
    let m2 := mv.scale (-rs.2)
    let owner1 := (owner.move m1).applyAcceleration (m1.scale ρ.bounce)
    let target1 := (target.move m2).applyAcceleration (m2.scale ρ.bounce)
    (owner1, target1)
  else
    (owner, target)

/-- The transform selected by an ownerRelativity or targetRelativity
configuration string: the local transform when the string is "local",
otherwise the global transform (the source compares with == against the
single string "local"). -/
def relSelect (rel : String) (b : WPhysicsModel) : WTransformMatrix3 :=
  if rel = "local" then b.localM else b.globalM

/-- The error raised by CopyTransformsConstraint.solve on an unknown mix
mode (new Error with the invalid mode as cause). -/
inductive JsError where
  | invalidMixMode : String → JsError
  deriving DecidableEq

/-- CopyTransformsConstraint configuration. -/
structure CopyTransformsConstraint where
  mixMode : String
  ownerRelativity : String
  targetRelativity : String

/-- CopyTransformsConstraint.solve: og is owner.global, o is the owner
transform selected by ownerRelativity, t the target transform selected by
targetRelativity.  The switch on mixMode: replace copies the raw buffer of
t into og; split combines the canonical components and applies them to og
in the order scale, skew, rotate, translate (the source passes a stray
literal false as a second argument to rotate, which the callee treats as
the y component of a direction vector and coerces to 0); beforeFull and
afterFull set og from the full matrix products t * o and o * t; any other
mode throws the invalid mix mode error.  Returns the updated owner. -/
def copyTransformsSolve (c : CopyTransformsConstraint)
    (owner target : WPhysicsModel) : Except JsError WPhysicsModel :=
  let og := owner.globalM
  let o := relSelect c.ownerRelativity owner
  let t := relSelect c.targetRelativity target
  if c.mixMode = "replace" then
    .ok { owner with globalM := og.setArray t.data }
  else if c.mixMode = "split" then
    let og1 := og.scaleM (t.sx * o.sx) (t.sy * o.sy)
    let og2 := og1.skewM (t.k + o.k)
    let og3 := og2.rotate2 (t.r + o.r) 0
    let og4 := og3.translateM (t.tx + o.tx) (t.ty + o.ty)
    .ok { owner with globalM := og4 }
  else if c.mixMode = "beforeFull" then
    .ok { owner with globalM := og.setArray (t.mult o) }
  else if c.mixMode = "afterFull" then
    .ok { owner with globalM := og.setArray (o.mult t) }
  else
    .error (JsError.invalidMixMode c.mixMode)

/-- LimitDistanceConstraint configuration. -/
structure LimitDistanceConstraint where
  distance : ℝ
  clampRegion : String
  ownerRelativity : String
  targetRelativity : String

/-- The breach condition of LimitDistanceConstraint.solve: the signed
violation diff breaches the selected clamp region. -/
def limitDistanceBreach (c : LimitDistanceConstraint) (diff : ℝ) : Prop :=
  (c.clampRegion = "inside" ∧ diff > 0) ∨
  (c.clampRegion = "outside" ∧ diff < 0) ∨
  (c.clampRegion = "surface" ∧ diff ≠ 0)

instance (c : LimitDistanceConstraint) (diff : ℝ) :
    Decidable (limitDistanceBreach c diff) := by
  unfold limitDistanceBreach; infer_instance

/-- LimitDistanceConstraint.solve: dir = t.t - o.t between the transforms
selected by the relativities, dist = dir.size, diff = dist - distance.
When the clamp region is breached, owner.global is translated to
dir.scale(diff / dist).sum(og.t).  Returns the updated owner. -/
def limitDistanceSolve (c : LimitDistanceConstraint)
    (owner target : WPhysicsModel) : WPhysicsModel :=
  let og := owner.globalM
  let o := relSelect c.ownerRelativity owner
  let t := relSelect c.targetRelativity target
  let dir := t.t.dif o.t
  let dist := dir.size
  let diff := dist - c.distance
  if limitDistanceBreach c diff then
    let t2 := (dir.scale (diff / dist)).sum og.t
    { owner with globalM := og.translateM t2.x t2.y }
  else
    owner

/-- LimitLocationConstraint configuration: the private influence field is
stored raw by the constructor. -/
structure LimitLocationConstraint where
  ownerRelativity : String
  influence : ℝ
  min : Vector2
  max : Vector2

/-- The LimitLocationConstraint constructor: stores ownerRelativity, the
influence argument unmodified, and the two corner vectors. -/
def mkLimitLocation (ownerRelativity : String) (influence minX minY maxX maxY : ℝ) :
    LimitLocationConstraint :=
  ⟨ownerRelativity, influence, ⟨minX, minY⟩, ⟨maxX, maxY⟩⟩

/-- The influence setter: stores clamp(v, 0, 1). -/
def LimitLocationConstraint.setInfluence (c : LimitLocationConstraint) (v : ℝ) :
    LimitLocationConstraint :=
  { c with influence := clamp v 0 1 }

/-- The per-axis correction of LimitLocationConstraint.solve, from the
nested conditionals of the source (minT and maxT are the offsets of the
two bounds from the baseline coordinate). -/
def limitLocationDelta (minT maxT : ℝ) : ℝ :=
  if minT > 0 then (if maxT < 0 then 0 else minT)
  else if maxT < 0 then maxT else 0

/-- LimitLocationConstraint.solve: o is the baseline transform selected by
ownerRelativity, minT = min - o.t, maxT = max - o.t, t the per-axis
correction, and owner.global is translated to
(og.tx + t.x * influence, og.ty + t.y * influence). -/
def limitLocationSolve (c : LimitLocationConstraint) (owner : WPhysicsModel) :
    WPhysicsModel :=
  let og := owner.globalM
  let o := relSelect c.ownerRelativity owner
  let minT := c.min.dif o.t
  let maxT := c.max.dif o.t
  let t : Vector2 := ⟨limitLocationDelta minT.x maxT.x, limitLocationDelta minT.y maxT.y⟩
  { owner with
    globalM := og.translateM (og.tx + t.x * c.influence) (og.ty + t.y * c.influence) }

/-- The size of a vector written componentwise. -/
lemma Vector2.size_eq (x y : ℝ) : Vector2.size ⟨x, y⟩ = Real.sqrt (x ^ 2 + y ^ 2) := rfl

/-- The size of a vector lying on the x-axis with a nonnegative x
component. -/
lemma Vector2.size_xaxis (x : ℝ) (hx : 0 ≤ x) : Vector2.size ⟨x, 0⟩ = x := by
  rw [Vector2.size_eq]
  norm_num [Real.sqrt_sq hx]

/-- Claim C8 counterexample: the js implementation of fromDegree, called
with the angle 0 as first argument and the length 2 as second, does not
return (2 cos 0, 2 sin 0); it returns (0, 0) because its parameters are
(length, degree). -/
theorem c8_fromDegree_cex :
    Vector2.fromDegreeJs 0 2 ≠ Vector2.mk (2 * Real.cos 0) (2 * Real.sin 0) := by
  intro h
  have hx := congrArg Vector2.x h
  simp only [Vector2.fromDegreeJs, Real.cos_zero] at hx
  norm_num at hx

/-- Claim C8, amended: for every angle (radians) and length, the ts
implementation fromDegree(angle, length) returns
(length cos angle, length sin angle); the js implementation instead takes
its arguments in the order (length, degree) and returns
(first cos second, first sin second). -/
theorem c8_fromDegree :
    (∀ θ L : ℝ, Vector2.fromDegree θ L = Vector2.mk (L * Real.cos θ) (L * Real.sin θ)) ∧
    (∀ L θ : ℝ, Vector2.fromDegreeJs L θ = Vector2.mk (L * Real.cos θ) (L * Real.sin θ)) :=
  ⟨fun _ _ => rfl, fun _ _ => rfl⟩

/-- Claim C9: every value stored through the influence setter is clamped
into the interval from 0 to 1, while the constructor stores its influence
argument unclamped, so the getter reports exactly the constructor
argument. -/
theorem c9_influence :
    (∀ (c : LimitLocationConstraint) (v : ℝ),
      0 ≤ (c.setInfluence v).influence ∧ (c.setInfluence v).influence ≤ 1) ∧
    (∀ (rel : String) (v minX minY maxX maxY : ℝ),
      (mkLimitLocation rel v minX minY maxX maxY).influence = v) := by
  refine ⟨fun c v => ?_, fun rel v a b c d => rfl⟩
  simp only [LimitLocationConstraint.setInfluence, clamp]
  exact ⟨le_min (le_max_left 0 v) zero_le_one, min_le_right _ 1⟩

/-- Claim C4: updateLocation always returns with zero force and zero
acceleration, and updateLocation(0) leaves the local translation and the
velocity unchanged. -/
theorem c4_updateLocation :
    (∀ (b : WPhysicsModel) (dt : ℝ),
      (b.updateLocation dt).force = Vector2.mk 0 0 ∧
      (b.updateLocation dt).acceleration = Vector2.mk 0 0) ∧
    (∀ b : WPhysicsModel,
      (b.updateLocation 0).localM.translate = b.localM.translate ∧
      (b.updateLocation 0).velocity = b.velocity) := by
  refine ⟨fun b dt => ⟨rfl, rfl⟩, fun b => ⟨?_, ?_⟩⟩
  · show Vector2.mk _ _ = _
    ext <;>
      simp [WPhysicsModel.updateLocation, WPhysicsModel.move,
        WPhysicsModel.applyVelocity, WPhysicsModel.applyAcceleration,
        WTransformMatrix3.translateM, WTransformMatrix3.calcMatrix,
        WTransformMatrix3.t, Vector2.sum, Vector2.scale, Vector2.add]
  · ext <;>
      simp [WPhysicsModel.updateLocation, WPhysicsModel.move,
        WPhysicsModel.applyVelocity, WPhysicsModel.applyAcceleration,
        Vector2.scale, Vector2.add]

/-- Claim C10: a freshly constructed WPhysicsModel has zero force and zero
acceleration, and the constructor-supplied acceleration has no lasting
effect: the velocity and the local translation are exactly the
constructor arguments (the trailing updateLocation(0) call scales the
acceleration by zero before resetting it). -/
theorem c10_constructor :
    ∀ (location : Vector2) (rotation : ℝ) (scale : Vector2) (skew : ℝ)
      (mass : JsNumber) (velocity acceleration origin : Vector2),
      (mkPhysicsModel location rotation scale skew mass velocity acceleration origin).force
          = Vector2.mk 0 0 ∧
      (mkPhysicsModel location rotation scale skew mass velocity acceleration
          origin).acceleration = Vector2.mk 0 0 ∧
      (mkPhysicsModel location rotation scale skew mass velocity acceleration
          origin).velocity = velocity ∧
      (mkPhysicsModel location rotation scale skew mass velocity acceleration
          origin).localM.translate = location := by
  intro location rotation scale skew mass velocity acceleration origin
  refine ⟨rfl, rfl, ?_, ?_⟩
  · ext <;>
      simp [mkPhysicsModel, WPhysicsModel.updateLocation, WPhysicsModel.move,
        WPhysicsModel.applyVelocity, WPhysicsModel.applyAcceleration,
        Vector2.scale, Vector2.add]
  · ext <;>
      simp [mkPhysicsModel, WPhysicsModel.updateLocation, WPhysicsModel.move,
        WPhysicsModel.applyVelocity, WPhysicsModel.applyAcceleration,
        WTransformMatrix3.translateM, WTransformMatrix3.calcMatrix,
        WTransformMatrix3.t, WTransformMatrix3.mkTransform,
        Vector2.sum, Vector2.scale, Vector2.add]

/-- A body at rest at position p with mass m: identity rotation, skew and
unit scale, zero velocity, acceleration and force, and local and global
transforms equal (the state a body is in right after integration). -/
def bodyAt (p : Vector2) (m : JsNumber) : WPhysicsModel :=
  { origin := ⟨0, 0⟩, mass := m, velocity := ⟨0, 0⟩, acceleration := ⟨0, 0⟩,
    force := ⟨0, 0⟩,
    localM := WTransformMatrix3.mkTransform p 0 0 ⟨1, 1⟩,
    globalM := WTransformMatrix3.mkTransform p 0 0 ⟨1, 1⟩ }

/-- Claim C5: CopyTransformsConstraint.solve with a mixMode that is none
of replace, split, beforeFull, afterFull fails with the invalid mix mode
error carrying that mode, and produces no updated owner state (so
owner.global is not mutated). -/
theorem c5_copyTransforms_invalid :
    ∀ (c : CopyTransformsConstraint) (owner target : WPhysicsModel),
      c.mixMode ≠ "replace" → c.mixMode ≠ "split" → c.mixMode ≠ "beforeFull" →
      c.mixMode ≠ "afterFull" →
      copyTransformsSolve c owner target =
        Except.error (JsError.invalidMixMode c.mixMode) := by
  intro c owner target h1 h2 h3 h4
  simp [copyTransformsSolve, h1, h2, h3, h4]

/-- Witness for claim C5 at the concrete mix mode lerp. -/
theorem c5_copyTransforms_invalid_witness :
    copyTransformsSolve ⟨"lerp", "global", "global"⟩ (bodyAt ⟨0, 0⟩ (.fin 1))
        (bodyAt ⟨9, 0⟩ (.fin 1)) =
      Except.error (JsError.invalidMixMode "lerp") :=
  c5_copyTransforms_invalid ⟨"lerp", "global", "global"⟩ _ _
    (by decide) (by decide) (by decide) (by decide)

/-- Claim C2: WSpring.solve applies to the target the force
diff * (ks (dl - L0) / dl) where diff = owner.global.t - target.global.t
and dl = |diff|, and the exact negation of it to the owner; when dl = 0
the applied force is the zero vector, and when dl = L0 the applied net
force is zero for both bodies. -/
theorem c2_spring_solve (s : WSpring) (owner target : WPhysicsModel) :
    ((owner.globalM.t.dif target.globalM.t).size ≠ 0 →
      (springSolve s owner target).2.force =
        target.force.add ((owner.globalM.t.dif target.globalM.t).scale
          (s.ks * ((owner.globalM.t.dif target.globalM.t).size - s.L0) /
            (owner.globalM.t.dif target.globalM.t).size)) ∧
      (springSolve s owner target).1.force =
        owner.force.add ((owner.globalM.t.dif target.globalM.t).scale
          (s.ks * ((owner.globalM.t.dif target.globalM.t).size - s.L0) /
            (owner.globalM.t.dif target.globalM.t).size)).neg) ∧
    ((owner.globalM.t.dif target.globalM.t).size = 0 →
      (springSolve s owner target).2.force = target.force ∧
      (springSolve s owner target).1.force = owner.force) ∧
    ((owner.globalM.t.dif target.globalM.t).size = s.L0 →
      (springSolve s owner target).2.force = target.force ∧
      (springSolve s owner target).1.force = owner.force) := by
  refine ⟨fun h0 => ?_, fun h0 => ?_, fun hL => ?_⟩
  · simp only [springSolve, if_neg h0, WPhysicsModel.applyForce]
    exact ⟨trivial, trivial⟩
  · simp only [springSolve, if_pos h0, WPhysicsModel.applyForce]
    constructor <;> (ext <;> simp [Vector2.scale, Vector2.add, Vector2.neg])
  · by_cases h0 : (owner.globalM.t.dif target.globalM.t).size = 0
    · simp only [springSolve, if_pos h0, WPhysicsModel.applyForce]
      constructor <;> (ext <;> simp [Vector2.scale, Vector2.add, Vector2.neg])
    · simp only [springSolve, if_neg h0, WPhysicsModel.applyForce, hL]
      constructor <;> (ext <;> simp [Vector2.scale, Vector2.add, Vector2.neg])

/-- The two bodies of the concrete spring scenario are exactly 10 apart. -/
lemma spring_scenario_dl :
    ((bodyAt ⟨10, 0⟩ (.fin 1)).globalM.t.dif
      (bodyAt ⟨0, 0⟩ (.fin 1)).globalM.t).size = 10 := by
  have h : ((bodyAt ⟨10, 0⟩ (.fin 1)).globalM.t.dif
      (bodyAt ⟨0, 0⟩ (.fin 1)).globalM.t) = ⟨10, 0⟩ := by
    ext <;> norm_num [bodyAt, WTransformMatrix3.mkTransform, WTransformMatrix3.t,
      Vector2.dif]
  rw [h, Vector2.size_xaxis 10 (by norm_num)]

/-- Witness for claim C2: a spring with L0 = 10, ks = 2 between bodies
exactly 10 apart leaves both forces unchanged. -/
theorem c2_spring_solve_witness :
    (springSolve ⟨10, 2⟩ (bodyAt ⟨10, 0⟩ (.fin 1)) (bodyAt ⟨0, 0⟩ (.fin 1))).2.force =
      (bodyAt ⟨0, 0⟩ (.fin 1)).force ∧
    (springSolve ⟨10, 2⟩ (bodyAt ⟨10, 0⟩ (.fin 1)) (bodyAt ⟨0, 0⟩ (.fin 1))).1.force =
      (bodyAt ⟨10, 0⟩ (.fin 1)).force :=
  (c2_spring_solve ⟨10, 2⟩ (bodyAt ⟨10, 0⟩ (.fin 1)) (bodyAt ⟨0, 0⟩ (.fin 1))).2.2
    spring_scenario_dl

/-- Scaling a vector scales its size by the absolute factor. -/
lemma Vector2.size_scale (a : Vector2) (n : ℝ) : (a.scale n).size = |n| * a.size := by
  simp only [Vector2.size, Vector2.length, Vector2.scale]
  rw [show (a.x * n) ^ 2 + (a.y * n) ^ 2 = n ^ 2 * (a.x ^ 2 + a.y ^ 2) by ring,
    Real.sqrt_mul (sq_nonneg n), Real.sqrt_sq_eq_abs]

/-- relSelect with the string global picks the global transform. -/
lemma relSelect_global (b : WPhysicsModel) : relSelect "global" b = b.globalM :=
  if_neg (by decide)

/-- relSelect with the string local picks the local transform. -/
lemma relSelect_local (b : WPhysicsModel) : relSelect "local" b = b.localM :=
  if_pos rfl

/-- limitDistanceSolve written as a single conditional over the connecting
vector dir. -/
lemma limitDistanceSolve_eq (c : LimitDistanceConstraint)
    (owner target : WPhysicsModel) (dir : Vector2)
    (hdir : dir = (relSelect c.targetRelativity target).t.dif
      (relSelect c.ownerRelativity owner).t) :
    limitDistanceSolve c owner target =
      if limitDistanceBreach c (dir.size - c.distance) then
        { owner with globalM := (owner.globalM.translateM
            ((dir.scale ((dir.size - c.distance) / dir.size)).sum owner.globalM.t).x
            ((dir.scale ((dir.size - c.distance) / dir.size)).sum owner.globalM.t).y) }
      else owner := by
  subst hdir; rfl

/-- Claim C6: when the signed violation (current distance between the
resolved owner and target translations minus the configured distance)
breaches the selected clamp region, LimitDistanceConstraint.solve moves
the owner.global translation along the connecting direction by exactly
the violation amount; otherwise the owner is unchanged. -/
theorem c6_limitDistance (c : LimitDistanceConstraint) (owner target : WPhysicsModel)
    (dir : Vector2)
    (hdir : dir = (relSelect c.targetRelativity target).t.dif
      (relSelect c.ownerRelativity owner).t)
    (hreg : c.clampRegion = "inside" ∨ c.clampRegion = "outside" ∨
      c.clampRegion = "surface")
    (hd : 0 < dir.size) :
    (limitDistanceBreach c (dir.size - c.distance) →
      (limitDistanceSolve c owner target).globalM.translate =
        owner.globalM.t.sum (dir.norm.scale (dir.size - c.distance)) ∧
      ((limitDistanceSolve c owner target).globalM.translate.dif
        owner.globalM.t).size = |dir.size - c.distance|) ∧
    (¬ limitDistanceBreach c (dir.size - c.distance) →
      limitDistanceSolve c owner target = owner) := by
  constructor
  · intro hb
    rw [limitDistanceSolve_eq c owner target dir hdir, if_pos hb]
    have hmove : ((owner.globalM.translateM
        ((dir.scale ((dir.size - c.distance) / dir.size)).sum owner.globalM.t).x
        ((dir.scale ((dir.size - c.distance) / dir.size)).sum owner.globalM.t).y)).translate
        = (dir.scale ((dir.size - c.distance) / dir.size)).sum owner.globalM.t := by
      simp [WTransformMatrix3.translateM, WTransformMatrix3.calcMatrix]
    constructor
    · show ((owner.globalM.translateM _ _)).translate = _
      rw [hmove]
      ext <;>
        simp only [Vector2.sum, Vector2.scale, Vector2.norm, Vector2.size,
          WTransformMatrix3.t] <;> ring
    · show (((owner.globalM.translateM _ _)).translate.dif owner.globalM.t).size = _
      rw [hmove]
      have hdif : ((dir.scale ((dir.size - c.distance) / dir.size)).sum
          owner.globalM.t).dif owner.globalM.t
          = dir.scale ((dir.size - c.distance) / dir.size) := by
        ext <;> simp only [Vector2.sum, Vector2.scale, Vector2.dif,
          WTransformMatrix3.t] <;> ring
      rw [hdif, Vector2.size_scale, abs_div, abs_of_pos hd,
        div_mul_cancel₀ _ (ne_of_gt hd)]
  · intro hb
    rw [limitDistanceSolve_eq c owner target dir hdir, if_neg hb]

/-- The translate field right after a translate(x, y) call. -/
lemma WTransformMatrix3.translateM_translate (m : WTransformMatrix3) (x y : ℝ) :
    (m.translateM x y).translate = ⟨x, y⟩ := rfl

/-- Witness for claim C6: an inside clamp at distance 5 between bodies
9 apart on the x-axis moves the owner by the violation 4 toward the
target. -/
theorem c6_limitDistance_witness :
    (limitDistanceSolve ⟨5, "inside", "global", "global"⟩ (bodyAt ⟨0, 0⟩ (.fin 1))
        (bodyAt ⟨9, 0⟩ (.fin 1))).globalM.translate =
      (bodyAt ⟨0, 0⟩ (.fin 1)).globalM.t.sum
        ((Vector2.mk 9 0).norm.scale ((Vector2.mk 9 0).size - 5)) ∧
    ((limitDistanceSolve ⟨5, "inside", "global", "global"⟩ (bodyAt ⟨0, 0⟩ (.fin 1))
        (bodyAt ⟨9, 0⟩ (.fin 1))).globalM.translate.dif
      (bodyAt ⟨0, 0⟩ (.fin 1)).globalM.t).size = |(Vector2.mk 9 0).size - 5| :=
  (c6_limitDistance ⟨5, "inside", "global", "global"⟩ (bodyAt ⟨0, 0⟩ (.fin 1))
    (bodyAt ⟨9, 0⟩ (.fin 1)) ⟨9, 0⟩
    (by
      show Vector2.mk 9 0 = (relSelect "global" (bodyAt ⟨9, 0⟩ (.fin 1))).t.dif
        (relSelect "global" (bodyAt ⟨0, 0⟩ (.fin 1))).t
      rw [relSelect_global, relSelect_global]
      ext <;> norm_num [bodyAt, WTransformMatrix3.mkTransform,
        WTransformMatrix3.t, Vector2.dif])
    (Or.inl rfl)
    (by rw [Vector2.size_xaxis 9 (by norm_num)]; norm_num)).1
    (Or.inl ⟨rfl, by rw [Vector2.size_xaxis 9 (by norm_num)]; norm_num⟩)

/-- The per-axis correction at full influence lands exactly on
clamp(g, m, M) when the box is well formed and the baseline equals the
corrected coordinate. -/
lemma limitLocationDelta_clamp (g m M : ℝ) (h : m ≤ M) :
    g + limitLocationDelta (m - g) (M - g) * 1 = clamp g m M := by
  unfold limitLocationDelta clamp
  split_ifs with h1 h2 h3
  · exfalso; linarith
  · rw [max_eq_left (by linarith : g ≤ m), min_eq_left h]; ring
  · rw [max_eq_right (by linarith : m ≤ g), min_eq_right (by linarith : M ≤ g)]; ring
  · rw [max_eq_right (by linarith : m ≤ g), min_eq_left (by linarith : g ≤ M)]; ring

/-- limitLocationSolve written as a single translate call. -/
lemma limitLocationSolve_eq (c : LimitLocationConstraint) (owner : WPhysicsModel) :
    limitLocationSolve c owner =
      { owner with globalM := (owner.globalM.translateM
          (owner.globalM.tx +
            limitLocationDelta (c.min.x - (relSelect c.ownerRelativity owner).t.x)
              (c.max.x - (relSelect c.ownerRelativity owner).t.x) * c.influence)
          (owner.globalM.ty +
            limitLocationDelta (c.min.y - (relSelect c.ownerRelativity owner).t.y)
              (c.max.y - (relSelect c.ownerRelativity owner).t.y) * c.influence)) } :=
  rfl

/-- Claim C7, amended: with influence 0 the solve never changes the
owner.global translation; with influence 1, a global baseline
(ownerRelativity other than local) and a well-formed box, the translation
is clamped exactly into the box, hence to the nearest bound on each
violated axis.  (With ownerRelativity local the correction is computed
from the local baseline but applied to the global translation, so the
result is offset by the difference of the two, as the counterexample
shows.) -/
theorem c7_limitLocation :
    (∀ (c : LimitLocationConstraint) (owner : WPhysicsModel), c.influence = 0 →
      (limitLocationSolve c owner).globalM.translate = owner.globalM.translate) ∧
    (∀ (c : LimitLocationConstraint) (owner : WPhysicsModel),
      c.influence = 1 → c.ownerRelativity ≠ "local" →
      c.min.x ≤ c.max.x → c.min.y ≤ c.max.y →
      (limitLocationSolve c owner).globalM.translate =
        Vector2.mk (clamp owner.globalM.translate.x c.min.x c.max.x)
          (clamp owner.globalM.translate.y c.min.y c.max.y)) := by
  constructor
  · intro c owner h
    rw [limitLocationSolve_eq, h]
    show (WTransformMatrix3.translateM _ _ _).translate = _
    rw [WTransformMatrix3.translateM_translate]
    ext <;> simp [WTransformMatrix3.tx, WTransformMatrix3.ty]
  · intro c owner h1 hrel hx hy
    have hsel : relSelect c.ownerRelativity owner = owner.globalM := by
      unfold relSelect; exact if_neg hrel
    rw [limitLocationSolve_eq, h1, hsel]
    show (WTransformMatrix3.translateM _ _ _).translate = _
    rw [WTransformMatrix3.translateM_translate]
    ext
    · exact limitLocationDelta_clamp owner.globalM.translate.x c.min.x c.max.x hx
    · exact limitLocationDelta_clamp owner.globalM.translate.y c.min.y c.max.y hy

/-- A body whose local and global transforms disagree: local translation
at the origin, global translation at (100, 100). -/
def cexSplitBody : WPhysicsModel :=
  { origin := ⟨0, 0⟩, mass := .fin 1, velocity := ⟨0, 0⟩, acceleration := ⟨0, 0⟩,
    force := ⟨0, 0⟩,
    localM := WTransformMatrix3.mkTransform ⟨0, 0⟩ 0 0 ⟨1, 1⟩,
    globalM := WTransformMatrix3.mkTransform ⟨100, 100⟩ 0 0 ⟨1, 1⟩ }

/-- Claim C7 counterexample: a LimitLocationConstraint with influence 1,
ownerRelativity local, box [1, 2] x [1, 2], applied to a body whose local
baseline (0, 0) lies below the box: the solve sets the global x
translation to 101, not to the nearest bound 1. -/
theorem c7_limitLocation_cex :
    (mkLimitLocation "local" 1 1 1 2 2).influence = 1 ∧
    (relSelect (mkLimitLocation "local" 1 1 1 2 2).ownerRelativity cexSplitBody).t.x <
      (mkLimitLocation "local" 1 1 1 2 2).min.x ∧
    (mkLimitLocation "local" 1 1 1 2 2).min.x ≤ (mkLimitLocation "local" 1 1 1 2 2).max.x ∧
    (limitLocationSolve (mkLimitLocation "local" 1 1 1 2 2) cexSplitBody).globalM.translate.x
      = 101 ∧
    (101 : ℝ) ≠ (mkLimitLocation "local" 1 1 1 2 2).min.x := by
  refine ⟨rfl, ?_, by norm_num [mkLimitLocation], ?_, by norm_num [mkLimitLocation]⟩
  · show (relSelect "local" cexSplitBody).t.x < 1
    rw [relSelect_local]
    norm_num [cexSplitBody, WTransformMatrix3.mkTransform, WTransformMatrix3.t]
  · rw [limitLocationSolve_eq]
    show (WTransformMatrix3.translateM _ _ _).translate.x = 101
    rw [WTransformMatrix3.translateM_translate]
    show cexSplitBody.globalM.tx + limitLocationDelta
        ((1 : ℝ) - (relSelect "local" cexSplitBody).t.x)
        ((2 : ℝ) - (relSelect "local" cexSplitBody).t.x) * 1 = 101
    rw [relSelect_local]
    norm_num [cexSplitBody, WTransformMatrix3.mkTransform, WTransformMatrix3.t,
      WTransformMatrix3.tx, limitLocationDelta]

/-- Witness for claim C7: full influence with a global baseline at
(100, 100) and box [1, 2] x [1, 2] clamps the translation into the box. -/
theorem c7_limitLocation_witness :
    (limitLocationSolve (mkLimitLocation "global" 1 1 1 2 2)
        (bodyAt ⟨100, 100⟩ (.fin 1))).globalM.translate =
      Vector2.mk (clamp (bodyAt ⟨100, 100⟩ (.fin 1)).globalM.translate.x 1 2)
        (clamp (bodyAt ⟨100, 100⟩ (.fin 1)).globalM.translate.y 1 2) :=
  c7_limitLocation.2 (mkLimitLocation "global" 1 1 1 2 2) (bodyAt ⟨100, 100⟩ (.fin 1))
    rfl (by decide) (by norm_num [mkLimitLocation]) (by norm_num [mkLimitLocation])

/-- The mass-weighted split fractions (r1, r2) of the rope overshoot as
the spec states them: both masses finite gives
(target.mass / sum, owner.mass / sum); only the owner finite gives (1, 0);
only the target finite gives (0, 1); both infinite gives (0, 0).  Stated
from the spec text for comparison against ropeSolve. -/
def specMassSplit : JsNumber → JsNumber → ℝ × ℝ
  | .fin a, .fin b => (b / (a + b), a / (a + b))
  | .fin _, .inf => (1, 0)
  | .inf, .fin _ => (0, 1)
  | .inf, .inf => (0, 0)

/-- Claim C1: whenever the distance between the global translations
exceeds the rope length, WRope.solve moves the owner along the connecting
vector by the overshoot fraction times r1 and the target by the same
fraction times r2 in the opposite direction, with (r1, r2) the
mass-weighted split of specMassSplit; in particular with unit masses,
length 5 and distance 9 on the x-axis one solve leaves the bodies exactly
5 apart with each moved 2 units toward the other, and with an infinite
owner mass the owner stays put while the target moves the full 4-unit
overshoot. -/
theorem c1_rope_solve :
    (∀ (ρ : WRope) (owner target : WPhysicsModel) (dir : Vector2),
      dir = target.globalM.t.dif owner.globalM.t →
      ρ.length < dir.size →
      (ropeSolve ρ owner target).1.localM.translate =
        owner.localM.t.sum (dir.scale ((dir.size - ρ.length) / dir.size *
          (specMassSplit owner.mass target.mass).1)) ∧
      (ropeSolve ρ owner target).2.localM.translate =
        target.localM.t.sum ((dir.scale ((dir.size - ρ.length) / dir.size *
          (specMassSplit owner.mass target.mass).2)).neg)) ∧
    ((ropeSolve ⟨5, 0⟩ (bodyAt ⟨0, 0⟩ (.fin 1)) (bodyAt ⟨9, 0⟩ (.fin 1))).1.localM.translate
        = Vector2.mk 2 0 ∧
      (ropeSolve ⟨5, 0⟩ (bodyAt ⟨0, 0⟩ (.fin 1)) (bodyAt ⟨9, 0⟩ (.fin 1))).2.localM.translate
        = Vector2.mk 7 0 ∧
      ((ropeSolve ⟨5, 0⟩ (bodyAt ⟨0, 0⟩ (.fin 1)) (bodyAt ⟨9, 0⟩ (.fin 1))).2.localM.translate.dif
        (ropeSolve ⟨5, 0⟩ (bodyAt ⟨0, 0⟩ (.fin 1)) (bodyAt ⟨9, 0⟩ (.fin 1))).1.localM.translate).size
        = 5) ∧
    ((ropeSolve ⟨5, 0⟩ (bodyAt ⟨0, 0⟩ .inf) (bodyAt ⟨9, 0⟩ (.fin 1))).1.localM.translate
        = Vector2.mk 0 0 ∧
      (ropeSolve ⟨5, 0⟩ (bodyAt ⟨0, 0⟩ .inf) (bodyAt ⟨9, 0⟩ (.fin 1))).2.localM.translate
        = Vector2.mk 5 0) := by
  have gen : ∀ (ρ : WRope) (owner target : WPhysicsModel) (dir : Vector2),
      dir = target.globalM.t.dif owner.globalM.t →
      ρ.length < dir.size →
      (ropeSolve ρ owner target).1.localM.translate =
        owner.localM.t.sum (dir.scale ((dir.size - ρ.length) / dir.size *
          (specMassSplit owner.mass target.mass).1)) ∧
      (ropeSolve ρ owner target).2.localM.translate =
        target.localM.t.sum ((dir.scale ((dir.size - ρ.length) / dir.size *
          (specMassSplit owner.mass target.mass).2)).neg) := by
    intro ρ owner target dir hdir hgt
    subst hdir
    rcases hm : owner.mass with a | _ <;> rcases ht : target.mass with b | _ <;>
      (constructor <;>
        (simp only [ropeSolve, hm, ht, if_pos hgt, specMassSplit]
         simp only [WPhysicsModel.move, WPhysicsModel.applyAcceleration,
           WTransformMatrix3.translateM, WTransformMatrix3.calcMatrix,
           WTransformMatrix3.t, Vector2.sum, Vector2.scale, Vector2.neg]
         ext <;> dsimp <;> ring))
  have hdir1 : Vector2.mk 9 0 =
      (bodyAt ⟨9, 0⟩ (.fin 1)).globalM.t.dif (bodyAt ⟨0, 0⟩ (.fin 1)).globalM.t := by
    ext <;> norm_num [bodyAt, WTransformMatrix3.mkTransform, WTransformMatrix3.t,
      Vector2.dif]
  have hdir2 : Vector2.mk 9 0 =
      (bodyAt ⟨9, 0⟩ (.fin 1)).globalM.t.dif (bodyAt ⟨0, 0⟩ .inf).globalM.t := by
    ext <;> norm_num [bodyAt, WTransformMatrix3.mkTransform, WTransformMatrix3.t,
      Vector2.dif]
  have hsz : (Vector2.mk 9 0).size = 9 := Vector2.size_xaxis 9 (by norm_num)
  have hgt9 : (5 : ℝ) < (Vector2.mk 9 0).size := by rw [hsz]; norm_num
  refine ⟨gen, ?_, ?_⟩
  · have h1 := gen ⟨5, 0⟩ (bodyAt ⟨0, 0⟩ (.fin 1)) (bodyAt ⟨9, 0⟩ (.fin 1))
      (Vector2.mk 9 0) hdir1 hgt9
    have e1 : (ropeSolve ⟨5, 0⟩ (bodyAt ⟨0, 0⟩ (.fin 1))
        (bodyAt ⟨9, 0⟩ (.fin 1))).1.localM.translate = Vector2.mk 2 0 := by
      rw [h1.1]
      ext <;> norm_num [bodyAt, WTransformMatrix3.mkTransform, WTransformMatrix3.t,
        Vector2.sum, Vector2.scale, specMassSplit, hsz]
    have e2 : (ropeSolve ⟨5, 0⟩ (bodyAt ⟨0, 0⟩ (.fin 1))
        (bodyAt ⟨9, 0⟩ (.fin 1))).2.localM.translate = Vector2.mk 7 0 := by
      rw [h1.2]
      ext <;> norm_num [bodyAt, WTransformMatrix3.mkTransform, WTransformMatrix3.t,
        Vector2.sum, Vector2.scale, Vector2.neg, specMassSplit, hsz]
    refine ⟨e1, e2, ?_⟩
    rw [e1, e2]
    have hd : (Vector2.mk 7 0).dif (Vector2.mk 2 0) = Vector2.mk 5 0 := by
      ext <;> norm_num [Vector2.dif]
    rw [hd, Vector2.size_xaxis 5 (by norm_num)]
  · have h2 := gen ⟨5, 0⟩ (bodyAt ⟨0, 0⟩ .inf) (bodyAt ⟨9, 0⟩ (.fin 1))
      (Vector2.mk 9 0) hdir2 hgt9
    constructor
    · rw [h2.1]
      ext <;> norm_num [bodyAt, WTransformMatrix3.mkTransform, WTransformMatrix3.t,
        Vector2.sum, Vector2.scale, specMassSplit, hsz]
    · rw [h2.2]
      ext <;> norm_num [bodyAt, WTransformMatrix3.mkTransform, WTransformMatrix3.t,
        Vector2.sum, Vector2.scale, Vector2.neg, specMassSplit, hsz]

/-- Witness for claim C1: the general movement law applied at the
concrete unit-mass scenario. -/
theorem c1_rope_solve_witness :
    (ropeSolve ⟨5, 0⟩ (bodyAt ⟨0, 0⟩ (.fin 1)) (bodyAt ⟨9, 0⟩ (.fin 1))).1.localM.translate =
      (bodyAt ⟨0, 0⟩ (.fin 1)).localM.t.sum ((Vector2.mk 9 0).scale
        (((Vector2.mk 9 0).size - 5) / (Vector2.mk 9 0).size *
          (specMassSplit (.fin 1) (.fin 1)).1)) :=
  (c1_rope_solve.1 ⟨5, 0⟩ (bodyAt ⟨0, 0⟩ (.fin 1)) (bodyAt ⟨9, 0⟩ (.fin 1))
    (Vector2.mk 9 0)
    (by ext <;> norm_num [bodyAt, WTransformMatrix3.mkTransform, WTransformMatrix3.t,
      Vector2.dif])
    (by rw [Vector2.size_xaxis 9 (by norm_num)]; norm_num)).1

/-- atan2 of a point given in polar form r (cos psi, sin psi) with r > 0
equals psi up to an integer multiple of 2 pi. -/
lemma atan2_eq_angle_add (y x r ψ : ℝ) (hr : 0 < r)
    (hx : x = r * Real.cos ψ) (hy : y = r * Real.sin ψ) :
    ∃ n : ℤ, Vector2.atan2 y x = ψ + 2 * Real.pi * n := by
  refine ⟨⌊(Real.pi - ψ) / (2 * Real.pi)⌋, ?_⟩
  have h := Complex.arg_mul_cos_add_sin_mul_I_sub hr ψ
  rw [← Complex.ofReal_cos, ← Complex.ofReal_sin] at h
  have key : ((x : ℂ) + (y : ℂ) * Complex.I) =
      (r : ℂ) * (Real.cos ψ + Real.sin ψ * Complex.I) := by
    simp [Complex.ext_iff, hx, hy]
  unfold Vector2.atan2
  rw [key]
  linarith [h]

/-- Cosine of theta plus the complement of arctan K. -/
lemma cos_theta_add_co_arctan (θ K : ℝ) :
    Real.cos (θ + (Real.pi / 2 - Real.arctan K)) =
      (K * Real.cos θ - Real.sin θ) / Real.sqrt (1 + K ^ 2) := by
  rw [Real.cos_add, Real.cos_pi_div_two_sub, Real.sin_pi_div_two_sub,
    Real.sin_arctan, Real.cos_arctan]
  ring

/-- Sine of theta plus the complement of arctan K. -/
lemma sin_theta_add_co_arctan (θ K : ℝ) :
    Real.sin (θ + (Real.pi / 2 - Real.arctan K)) =
      (K * Real.sin θ + Real.cos θ) / Real.sqrt (1 + K ^ 2) := by
  rw [Real.sin_add, Real.cos_pi_div_two_sub, Real.sin_pi_div_two_sub,
    Real.sin_arctan, Real.cos_arctan]
  ring

/-- The decomposition round trip: calcFields applied to the calcMatrix
coefficients of canonical parameters with direction (cos theta, sin theta)
and strictly positive scale recovers every canonical field exactly. -/
lemma calcFields_calcMatrix_roundtrip (tx ty θ K sx sy : ℝ)
    (hsx : 0 < sx) (hsy : 0 < sy) :
    WTransformMatrix3.calcFieldsTM
        (mkMatrixData ⟨tx, ty⟩ ⟨Real.cos θ, Real.sin θ⟩ K ⟨sx, sy⟩) =
      ⟨⟨tx, ty⟩, ⟨Real.cos θ, Real.sin θ⟩, K, ⟨sx, sy⟩,
        mkMatrixData ⟨tx, ty⟩ ⟨Real.cos θ, Real.sin θ⟩ K ⟨sx, sy⟩⟩ := by
  have hs : (0 : ℝ) < Real.sqrt (1 + K ^ 2) := Real.sqrt_pos.mpr (by positivity)
  have hab : (Vector2.mk (Real.cos θ * sx) (Real.sin θ * sx)).length = sx := by
    unfold Vector2.length
    dsimp only
    rw [show (Real.cos θ * sx) ^ 2 + (Real.sin θ * sx) ^ 2 = sx ^ 2 by
      linear_combination sx ^ 2 * Real.sin_sq_add_cos_sq θ]
    exact Real.sqrt_sq hsx.le
  have hdirect : (Vector2.mk (Real.cos θ * sx) (Real.sin θ * sx)).norm =
      Vector2.mk (Real.cos θ) (Real.sin θ) := by
    unfold Vector2.norm Vector2.scale
    rw [hab]
    ext <;> dsimp <;> field_simp
  obtain ⟨m, hm⟩ := atan2_eq_angle_add (Real.sin θ) (Real.cos θ) 1 θ one_pos
    (by ring) (by ring)
  obtain ⟨n, hn⟩ := atan2_eq_angle_add ((Real.sin θ * K + Real.cos θ) * sy)
    ((Real.cos θ * K - Real.sin θ) * sy) (sy * Real.sqrt (1 + K ^ 2))
    (θ + (Real.pi / 2 - Real.arctan K)) (by positivity)
    (by rw [cos_theta_add_co_arctan]; field_simp; ring)
    (by rw [sin_theta_add_co_arctan]; field_simp; ring)
  have hrot : (Vector2.mk (Real.cos θ) (Real.sin θ)).rotation = θ + 2 * Real.pi * m := hm
  have hsk : Vector2.atan2 ((Real.sin θ * K + Real.cos θ) * sy)
        ((Real.cos θ * K - Real.sin θ) * sy) - Real.pi / 2 -
        (Vector2.mk (Real.cos θ) (Real.sin θ)).rotation =
      -Real.arctan K + (↑(n - m) : ℝ) * (2 * Real.pi) := by
    rw [hn, hrot]
    push_cast
    ring
  have hcd : ((Real.cos θ * K - Real.sin θ) * sy) ^ 2 +
      ((Real.sin θ * K + Real.cos θ) * sy) ^ 2 = sy ^ 2 * (1 + K ^ 2) := by
    linear_combination (sy ^ 2 * (1 + K ^ 2)) * Real.sin_sq_add_cos_sq θ
  have hsqrtcd : Real.sqrt (((Real.cos θ * K - Real.sin θ) * sy) ^ 2 +
      ((Real.sin θ * K + Real.cos θ) * sy) ^ 2) = sy * Real.sqrt (1 + K ^ 2) := by
    rw [hcd, Real.sqrt_mul (sq_nonneg sy), Real.sqrt_sq hsy.le]
  unfold WTransformMatrix3.calcFieldsTM
  dsimp only [mkMatrixData]
  rw [hdirect]
  refine WTransformMatrix3.ext rfl rfl ?_ ?_ rfl
  · rw [hsk, Real.tan_eq_sin_div_cos, Real.sin_add_int_mul_two_pi,
      Real.cos_add_int_mul_two_pi, ← Real.tan_eq_sin_div_cos, Real.tan_neg,
      Real.tan_arctan, neg_neg]
  · refine Vector2.ext ?_ ?_
    · exact hab
    · show Real.sqrt (((Real.cos θ * K - Real.sin θ) * sy) ^ 2 +
          ((Real.sin θ * K + Real.cos θ) * sy) ^ 2) *
          Real.cos (Vector2.atan2 ((Real.sin θ * K + Real.cos θ) * sy)
            ((Real.cos θ * K - Real.sin θ) * sy) - Real.pi / 2 -
            (Vector2.mk (Real.cos θ) (Real.sin θ)).rotation) = sy
      rw [hsqrtcd, hsk, Real.cos_add_int_mul_two_pi, Real.cos_neg, Real.cos_arctan]
      field_simp

/-- Claim C3, amended: for every canonical parameter set with skew angle
in the open interval from minus pi half to pi half and strictly positive
scale components, calcFields after calcMatrix recovers direction, skew
tangent, scale and translation exactly.  (At a zero scale component the
recovery fails: the counterexample normalises the zero vector.) -/
theorem c3_roundtrip (tx ty θ k0 sx sy : ℝ)
    (hk : |k0| < Real.pi / 2) (hsx : 0 < sx) (hsy : 0 < sy) :
    (WTransformMatrix3.mkTransform ⟨tx, ty⟩ θ k0 ⟨sx, sy⟩).calcFields.direct =
      (WTransformMatrix3.mkTransform ⟨tx, ty⟩ θ k0 ⟨sx, sy⟩).direct ∧
    (WTransformMatrix3.mkTransform ⟨tx, ty⟩ θ k0 ⟨sx, sy⟩).calcFields.skewTan =
      (WTransformMatrix3.mkTransform ⟨tx, ty⟩ θ k0 ⟨sx, sy⟩).skewTan ∧
    (WTransformMatrix3.mkTransform ⟨tx, ty⟩ θ k0 ⟨sx, sy⟩).calcFields.scale =
      (WTransformMatrix3.mkTransform ⟨tx, ty⟩ θ k0 ⟨sx, sy⟩).scale ∧
    (WTransformMatrix3.mkTransform ⟨tx, ty⟩ θ k0 ⟨sx, sy⟩).calcFields.translate =
      (WTransformMatrix3.mkTransform ⟨tx, ty⟩ θ k0 ⟨sx, sy⟩).translate := by
  have hfd : Vector2.fromDegree θ = Vector2.mk (Real.cos θ) (Real.sin θ) := by
    unfold Vector2.fromDegree; ext <;> dsimp <;> ring
  have hp : WTransformMatrix3.mkTransform ⟨tx, ty⟩ θ k0 ⟨sx, sy⟩ =
      ⟨⟨tx, ty⟩, ⟨Real.cos θ, Real.sin θ⟩, Real.tan k0, ⟨sx, sy⟩,
        mkMatrixData ⟨tx, ty⟩ ⟨Real.cos θ, Real.sin θ⟩ (Real.tan k0) ⟨sx, sy⟩⟩ := by
    unfold WTransformMatrix3.mkTransform
    rw [hfd]
  rw [hp]
  have h2 : (⟨⟨tx, ty⟩, ⟨Real.cos θ, Real.sin θ⟩, Real.tan k0, ⟨sx, sy⟩,
      mkMatrixData ⟨tx, ty⟩ ⟨Real.cos θ, Real.sin θ⟩ (Real.tan k0) ⟨sx, sy⟩⟩ :
        WTransformMatrix3).calcFields =
      ⟨⟨tx, ty⟩, ⟨Real.cos θ, Real.sin θ⟩, Real.tan k0, ⟨sx, sy⟩,
        mkMatrixData ⟨tx, ty⟩ ⟨Real.cos θ, Real.sin θ⟩ (Real.tan k0) ⟨sx, sy⟩⟩ :=
    calcFields_calcMatrix_roundtrip tx ty θ (Real.tan k0) sx sy hsx hsy
  rw [h2]
  exact ⟨rfl, rfl, rfl, rfl⟩

/-- Claim C3 counterexample: the parameter set with rotation 0, skew 0,
scale (0, 1) (skew angle inside the interval, scale components
nonnegative) does not survive the round trip: the recovered direction is
the zero vector, not the original (1, 0). -/
theorem c3_roundtrip_cex :
    |(0 : ℝ)| < Real.pi / 2 ∧ (0 : ℝ) ≤ 0 ∧ (0 : ℝ) ≤ 1 ∧
    (WTransformMatrix3.mkTransform ⟨0, 0⟩ 0 0 ⟨0, 1⟩).calcFields.direct ≠
      (WTransformMatrix3.mkTransform ⟨0, 0⟩ 0 0 ⟨0, 1⟩).direct := by
  refine ⟨by rw [abs_zero]; positivity, le_refl 0, by norm_num, ?_⟩
  intro h
  have hx := congrArg Vector2.x h
  simp only [WTransformMatrix3.calcFields, WTransformMatrix3.mkTransform,
    WTransformMatrix3.calcFieldsTM, mkMatrixData, Vector2.fromDegree,
    Vector2.norm, Vector2.scale, Vector2.length] at hx
  norm_num [Real.cos_zero, Real.sin_zero, Real.sqrt_zero] at hx

/-- Witness for claim C3 at the identity parameter set. -/
theorem c3_roundtrip_witness :
    |(0 : ℝ)| < Real.pi / 2 ∧ (0 : ℝ) < 1 ∧
    ((WTransformMatrix3.mkTransform ⟨0, 0⟩ 0 0 ⟨1, 1⟩).calcFields.direct =
      (WTransformMatrix3.mkTransform ⟨0, 0⟩ 0 0 ⟨1, 1⟩).direct ∧
    (WTransformMatrix3.mkTransform ⟨0, 0⟩ 0 0 ⟨1, 1⟩).calcFields.skewTan =
      (WTransformMatrix3.mkTransform ⟨0, 0⟩ 0 0 ⟨1, 1⟩).skewTan ∧
    (WTransformMatrix3.mkTransform ⟨0, 0⟩ 0 0 ⟨1, 1⟩).calcFields.scale =
      (WTransformMatrix3.mkTransform ⟨0, 0⟩ 0 0 ⟨1, 1⟩).scale ∧
    (WTransformMatrix3.mkTransform ⟨0, 0⟩ 0 0 ⟨1, 1⟩).calcFields.translate =
      (WTransformMatrix3.mkTransform ⟨0, 0⟩ 0 0 ⟨1, 1⟩).translate) :=
  ⟨by rw [abs_zero]; positivity, by norm_num,
    c3_roundtrip 0 0 0 0 1 1 (by rw [abs_zero]; positivity) (by norm_num)
      (by norm_num)⟩
